import Mathlib

/-!
Verification of the 0-D baseline gas-turbine engine component models
(compressor, combustor, turbine, nozzle) against their design
specification.  The component functions below are shallow embeddings of
the Python source files under src/components, with floating-point
arithmetic idealised as real arithmetic: each def mirrors the source
line by line (same constants, same intermediate bindings, same
branches).
-/

open Real

-- ===========================
--   CONSTANTS (from compressor.py / nozzle.py / turbine.py / combustor.py)
-- ===========================

/-- Ratio of specific heats for cold air, from compressor.py and nozzle.py. -/
def GAMMA_AIR : ℝ := 1.4

/-- Specific heat of air at constant pressure, J per kg K. -/
def CP_AIR : ℝ := 1005.0

/-- Specific gas constant for air, J per kg K. -/
def R_AIR : ℝ := 287.0

/-- Ratio of specific heats for hot combustion gas, from turbine.py. -/
def GAMMA_HOT : ℝ := 1.33

/-- Specific heat of hot gas, from turbine.py. -/
def CP_HOT : ℝ := 1005.0

/-- Minimum physical temperature limit, K, from turbine.py. -/
def T_MIN_PHYSICAL : ℝ := 300.0

/-- Lower heating value of Jet-A fuel, J per kg, from combustor.py. -/
def LHV_JET_A : ℝ := 43.0e6

/-- Critical pressure ratio for choked flow, from nozzle.py:
`((gamma+1)/2)^(gamma/(gamma-1))`. -/
noncomputable def CRITICAL_PR : ℝ :=
  ((GAMMA_AIR + 1.0) / 2.0) ^ (GAMMA_AIR / (GAMMA_AIR - 1.0))

-- ===========================
--   COMPRESSOR (compressor.py)
-- ===========================

/-- Embedding of `compressor(T_in, P_in, pressure_ratio, efficiency)` from
compressor.py, returning the pair (T_out, P_out). -/
noncomputable def compressor (T_in P_in pr eff : ℝ) : ℝ × ℝ :=
  let P_out := P_in * pr
  let exponent := (GAMMA_AIR - 1.0) / GAMMA_AIR
  let T_out_isentropic := T_in * pr ^ exponent
  let delta_T_isentropic := T_out_isentropic - T_in
  let delta_T_actual := delta_T_isentropic / eff
  let T_out := T_in + delta_T_actual
  (T_out, P_out)

/-- Embedding of `compute_compressor_work(T_in, T_out, mass_flow)` from
compressor.py (the source defaults mass_flow to 1.0; here it is passed
explicitly). -/
def compute_compressor_work (T_in T_out mass_flow : ℝ) : ℝ :=
  mass_flow * CP_AIR * (T_out - T_in)

-- ===========================
--   COMBUSTOR (combustor.py)
-- ===========================

/-- Embedding of `combustor(T_in, P_in, fuel_air_ratio,
combustion_efficiency, pressure_loss_factor)` from combustor.py (the
source defaults the last two arguments to 0.99 and 0.03; here they are
passed explicitly). -/
noncomputable def combustor (T_in P_in f comb_eff loss : ℝ) : ℝ × ℝ :=
  let delta_T := comb_eff * f * LHV_JET_A / CP_AIR
  let T_out := T_in + delta_T
  let P_out := P_in * (1.0 - loss)
  (T_out, P_out)

-- ===========================
--   TURBINE (turbine.py)
-- ===========================

/-- Embedding of `turbine(T_in, P_in, work_required, efficiency)` from
turbine.py, including the 300 K physical floor on the outlet
temperature. -/
noncomputable def turbine (T_in P_in work_required eff : ℝ) : ℝ × ℝ :=
  let delta_T_isentropic := work_required / CP_HOT
  let delta_T_actual := delta_T_isentropic / eff
  let T_raw := T_in - delta_T_actual
  let T_out := if T_raw < T_MIN_PHYSICAL then T_MIN_PHYSICAL else T_raw
  let trat := T_out / T_in
  let exponent := GAMMA_HOT / (GAMMA_HOT - 1.0)
  let prat := trat ^ exponent
  let P_out := P_in * prat
  (T_out, P_out)

-- ===========================
--   NOZZLE (nozzle.py)
-- ===========================

/-- The choked-flow branch of `nozzle` in nozzle.py, as a standalone
function of the quantities it reads (it does not read P_ambient).
Returns (T_exit, P_exit, V_exit, M_exit). -/
noncomputable def nozzleChoked (T_in P_in : ℝ) : ℝ × ℝ × ℝ × ℝ :=
  let gamma := GAMMA_AIR
  let R := R_AIR
  let T_exit := T_in * (2.0 / (gamma + 1.0))
  let P_exit := P_in * (2.0 / (gamma + 1.0)) ^ (gamma / (gamma - 1.0))
  let a_star := Real.sqrt (gamma * R * T_exit)
  let V_exit := a_star
  let M_exit := 1.0
  (T_exit, P_exit, V_exit, M_exit)

/-- The unchoked (subsonic isentropic expansion) branch of `nozzle` in
nozzle.py, as a standalone function.
Returns (T_exit, P_exit, V_exit, M_exit). -/
noncomputable def nozzleUnchoked (T_in P_in P_ambient : ℝ) : ℝ × ℝ × ℝ × ℝ :=
  let gamma := GAMMA_AIR
  let R := R_AIR
  let cp := CP_AIR
  let P_exit := P_ambient
  let prat := P_exit / P_in
  let exponent := (gamma - 1.0) / gamma
  let T_exit := T_in * prat ^ exponent
  let delta_h := cp * (T_in - T_exit)
  let V_exit := Real.sqrt (max (2.0 * delta_h) 0.0)
  let a_exit := Real.sqrt (gamma * R * T_exit)
  let M_exit := V_exit / a_exit
  (T_exit, P_exit, V_exit, M_exit)

/-- Embedding of `nozzle(T_in, P_in, P_ambient)` from nozzle.py: the
inlet-to-ambient pressure ratio selects the choked or the unchoked
branch. -/
noncomputable def nozzle (T_in P_in P_ambient : ℝ) : ℝ × ℝ × ℝ × ℝ :=
  let prat := P_in / P_ambient
  if prat ≥ CRITICAL_PR then nozzleChoked T_in P_in
  else nozzleUnchoked T_in P_in P_ambient

-- ===========================
--   SPECIFIC IMPULSE (nozzle.py)
-- ===========================

/-- Python-level failure modes of the scalar helpers: an unhandled
division by zero, or an explicit input-validation rejection. -/
inductive PyError where
  | zeroDivisionError
  | valueError
  deriving DecidableEq

/-- Embedding of `compute_specific_impulse(thrust, mdot_fuel, g)` from
nozzle.py.  The body is the bare expression `thrust / (mdot_fuel * g)`;
when the denominator is zero Python raises a ZeroDivisionError, modelled
here as `Except.error PyError.zeroDivisionError`.  There is no input
validation in the source. -/
noncomputable def compute_specific_impulse (thrust mdot_fuel g : ℝ) :
    Except PyError ℝ :=
  if mdot_fuel * g = 0 then Except.error PyError.zeroDivisionError
  else Except.ok (thrust / (mdot_fuel * g))

/-- Modelled from the spec: the stricter contract the spec recommends for
`specific_impulse`, which rejects `mdot_fuel = 0` explicitly with a
descriptive input-validation error before dividing. -/
noncomputable def compute_specific_impulse_validated (thrust mdot_fuel g : ℝ) :
    Except PyError ℝ :=
  if mdot_fuel = 0 then Except.error PyError.valueError
  else Except.ok (thrust / (mdot_fuel * g))

-- ===========================
--   THEOREMS
-- ===========================

/-- Claim C1: for every compressor input with T_in > 0, P_in > 0,
pressure_ratio >= 1 and efficiency in (0,1], the compressor returns
P_out = P_in * pressure_ratio exactly, and
T_out = T_in + (T_in * pressure_ratio^((gamma-1)/gamma) - T_in) / efficiency
with gamma = 1.4: the ideal isentropic temperature rise, not the
absolute temperature, is divided by the efficiency. -/
theorem compressor_formula (T_in P_in pr eff : ℝ)
    (hT : 0 < T_in) (hP : 0 < P_in) (hpr : 1 ≤ pr)
    (heff0 : 0 < eff) (heff1 : eff ≤ 1) :
    compressor T_in P_in pr eff =
      (T_in + (T_in * pr ^ (((1.4 : ℝ) - 1) / 1.4) - T_in) / eff,
       P_in * pr) := by
  simp only [compressor, GAMMA_AIR]
  norm_num

theorem compressor_formula_witness :
    (0 : ℝ) < 300 ∧
      compressor 300 100000 2 (9/10) =
        (300 + (300 * (2 : ℝ) ^ (((1.4 : ℝ) - 1) / 1.4) - 300) / (9/10),
         100000 * 2) :=
  ⟨by norm_num,
   compressor_formula 300 100000 2 (9/10) (by norm_num) (by norm_num)
     (by norm_num) (by norm_num) (by norm_num)⟩

/-- Claim C7: for every combustor input with T_in > 0, P_in > 0,
fuel_air_ratio >= 0, combustion_efficiency in (0,1] and
pressure_loss_factor in [0,1), the combustor returns
T_out = T_in + combustion_efficiency * fuel_air_ratio * LHV / Cp with
LHV = 43.0e6 and Cp = 1005, and P_out = P_in * (1 - pressure_loss_factor);
in particular fuel_air_ratio = 0 gives T_out = T_in exactly. -/
theorem combustor_formula (T_in P_in f ce loss : ℝ)
    (hT : 0 < T_in) (hP : 0 < P_in) (hf : 0 ≤ f)
    (hce0 : 0 < ce) (hce1 : ce ≤ 1) (hl0 : 0 ≤ loss) (hl1 : loss < 1) :
    combustor T_in P_in f ce loss =
        (T_in + ce * f * 43000000 / 1005, P_in * (1 - loss)) ∧
      (combustor T_in P_in 0 ce loss).1 = T_in := by
  constructor
  · simp only [combustor, LHV_JET_A, CP_AIR]
    norm_num
  · simp [combustor]

theorem combustor_formula_witness :
    (0 : ℝ) < 500 ∧
      (combustor 500 1800000 (2/100) (99/100) (3/100) =
          (500 + (99/100) * (2/100) * 43000000 / 1005, 1800000 * (1 - 3/100)) ∧
        (combustor 500 1800000 0 (99/100) (3/100)).1 = 500) :=
  ⟨by norm_num,
   combustor_formula 500 1800000 (2/100) (99/100) (3/100) (by norm_num)
     (by norm_num) (by norm_num) (by norm_num) (by norm_num) (by norm_num)
     (by norm_num)⟩

/-- Clamping an expression below by a floor, written as the source's
`if x < c then c else x`, equals `max x c`. -/
lemma if_lt_floor_eq_max (x c : ℝ) : (if x < c then c else x) = max x c := by
  rcases lt_or_le x c with h | h
  · simp [h, max_eq_right h.le]
  · simp [not_lt.mpr h, max_eq_left h]

/-- Claim C2: for every turbine input with T_in > 0, P_in > 0 and
efficiency in (0,1], the turbine computes the actual temperature drop as
(work_required / Cp_hot) / efficiency with Cp_hot = 1005, clamps the
outlet temperature at the 300 K floor, and computes the outlet pressure
from the actual post-clamp temperature ratio as
P_out = P_in * (T_out/T_in)^(gamma/(gamma-1)) with gamma = 1.33. -/
theorem turbine_formula (T_in P_in W eff : ℝ)
    (hT : 0 < T_in) (hP : 0 < P_in) (heff0 : 0 < eff) (heff1 : eff ≤ 1) :
    turbine T_in P_in W eff =
      (max (T_in - W / 1005 / eff) 300,
       P_in * (max (T_in - W / 1005 / eff) 300 / T_in) ^
         ((1.33 : ℝ) / (1.33 - 1))) := by
  simp only [turbine, CP_HOT, T_MIN_PHYSICAL, GAMMA_HOT, if_lt_floor_eq_max]
  norm_num

theorem turbine_formula_witness :
    (0 : ℝ) < 1500 ∧
      turbine 1500 1700000 215000 (9/10) =
        (max ((1500 : ℝ) - 215000 / 1005 / (9/10)) 300,
         1700000 * (max ((1500 : ℝ) - 215000 / 1005 / (9/10)) 300 / 1500) ^
           ((1.33 : ℝ) / (1.33 - 1))) :=
  ⟨by norm_num,
   turbine_formula 1500 1700000 215000 (9/10) (by norm_num) (by norm_num)
     (by norm_num) (by norm_num)⟩

/-- Claim C10: the turbine's 300 K floor applies unconditionally: for any
T_in > 0, P_in > 0, any work_required and any efficiency > 0 the outlet
temperature is at least 300 K, and when T_in is below 300 K with
nonnegative work_required the turbine returns exactly 300 K, hotter than
its own inlet. -/
theorem turbine_floor_unconditional (T_in P_in W eff : ℝ)
    (hT : 0 < T_in) (hP : 0 < P_in) (heff : 0 < eff) :
    300 ≤ (turbine T_in P_in W eff).1 ∧
      (T_in < 300 → 0 ≤ W → (turbine T_in P_in W eff).1 = 300) := by
  simp only [turbine, CP_HOT, T_MIN_PHYSICAL]
  constructor
  · split_ifs with h
    · norm_num
    · norm_num at h ⊢
      linarith
  · intro h1 h2
    have hd : 0 ≤ W / 1005 / eff := by positivity
    rw [if_pos]
    · norm_num
    · norm_num
      linarith

theorem turbine_floor_unconditional_witness :
    (0 : ℝ) < 250 ∧ (0 : ℝ) < 100000 ∧ (0 : ℝ) < 9/10 ∧
      (300 ≤ (turbine 250 100000 0 (9/10)).1 ∧
        ((250 : ℝ) < 300 → (0 : ℝ) ≤ 0 → (turbine 250 100000 0 (9/10)).1 = 300)) :=
  ⟨by norm_num, by norm_num, by norm_num,
   turbine_floor_unconditional 250 100000 0 (9/10) (by norm_num) (by norm_num)
     (by norm_num)⟩

/-- Claim C4: ideal round trip.  For T at least 300 K, P > 0,
pressure_ratio >= 1, run the compressor with efficiency 1, compute its
specific work, and feed that work to an efficiency-1 turbine whose inlet
temperature is the compressor outlet (at any positive inlet pressure):
the turbine outlet temperature is exactly T.  The balance closes because
Cp_air = Cp_hot = 1005. -/
theorem ideal_round_trip (T P PR P3 : ℝ)
    (hT : 300 ≤ T) (hP : 0 < P) (hPR : 1 ≤ PR) (hP3 : 0 < P3) :
    (turbine (compressor T P PR 1).1 P3
      (compute_compressor_work T (compressor T P PR 1).1 1) 1).1 = T := by
  simp only [turbine, compute_compressor_work, CP_AIR, CP_HOT, T_MIN_PHYSICAL]
  rw [if_neg]
  · ring
  · rw [not_lt]
    have key : (compressor T P PR 1).1 -
        1 * 1005.0 * ((compressor T P PR 1).1 - T) / 1005.0 / 1 = T := by
      ring
    rw [key]
    linarith

theorem ideal_round_trip_witness :
    (300 : ℝ) ≤ 300 ∧
      (turbine (compressor 300 1 1 1).1 1
        (compute_compressor_work 300 (compressor 300 1 1 1).1 1) 1).1 = 300 :=
  ⟨le_refl 300,
   ideal_round_trip 300 1 1 1 (by norm_num) (by norm_num) (by norm_num)
     (by norm_num)⟩

/-- Claim C3: for every nozzle input with T_in > 0, P_in > 0 and
P_ambient > 0: when P_in / P_ambient >= PR_crit the nozzle returns the
choked result T_exit = T_in * 2/(gamma+1),
P_exit = P_in * (2/(gamma+1))^(gamma/(gamma-1)),
V_exit = sqrt(gamma*R*T_exit) and M_exit = 1 exactly; otherwise it
returns the unchoked result in which P_exit equals P_ambient exactly,
T_exit = T_in * (P_ambient/P_in)^((gamma-1)/gamma) and
V_exit = sqrt(max(2*Cp*(T_in - T_exit), 0)), with gamma = 1.4. -/
theorem nozzle_regimes (T P Pa : ℝ) (hT : 0 < T) (hP : 0 < P) (hPa : 0 < Pa) :
    (CRITICAL_PR ≤ P / Pa →
      nozzle T P Pa =
        (T * (2 / ((1.4 : ℝ) + 1)),
         P * ((2 : ℝ) / ((1.4 : ℝ) + 1)) ^ ((1.4 : ℝ) / ((1.4 : ℝ) - 1)),
         Real.sqrt ((1.4 : ℝ) * 287 * (T * (2 / ((1.4 : ℝ) + 1)))),
         1)) ∧
    (P / Pa < CRITICAL_PR →
      ((nozzle T P Pa).2.1 = Pa ∧
       (nozzle T P Pa).1 = T * (Pa / P) ^ (((1.4 : ℝ) - 1) / 1.4) ∧
       (nozzle T P Pa).2.2.1 =
         Real.sqrt (max (2 * 1005 * (T - T * (Pa / P) ^ (((1.4 : ℝ) - 1) / 1.4))) 0))) := by
  constructor
  · intro h
    rw [nozzle, if_pos h]
    simp only [nozzleChoked, GAMMA_AIR, R_AIR]
    norm_num
  · intro h
    rw [nozzle, if_neg (not_le.mpr h)]
    refine ⟨?_, ?_, ?_⟩
    · simp [nozzleUnchoked]
    · simp only [nozzleUnchoked, GAMMA_AIR]
      norm_num
    · simp only [nozzleUnchoked, GAMMA_AIR, CP_AIR]
      norm_num
      ring_nf

theorem nozzle_regimes_witness :
    (0 : ℝ) < 900 ∧
      ((CRITICAL_PR ≤ 400000 / 101325 →
        nozzle 900 400000 101325 =
          (900 * (2 / ((1.4 : ℝ) + 1)),
           400000 * ((2 : ℝ) / ((1.4 : ℝ) + 1)) ^ ((1.4 : ℝ) / ((1.4 : ℝ) - 1)),
           Real.sqrt ((1.4 : ℝ) * 287 * (900 * (2 / ((1.4 : ℝ) + 1)))),
           1)) ∧
      ((400000 : ℝ) / 101325 < CRITICAL_PR →
        ((nozzle 900 400000 101325).2.1 = 101325 ∧
         (nozzle 900 400000 101325).1 =
           900 * ((101325 : ℝ) / 400000) ^ (((1.4 : ℝ) - 1) / 1.4) ∧
         (nozzle 900 400000 101325).2.2.1 =
           Real.sqrt (max (2 * 1005 *
             (900 - 900 * ((101325 : ℝ) / 400000) ^ (((1.4 : ℝ) - 1) / 1.4))) 0)))) :=
  ⟨by norm_num,
   nozzle_regimes 900 400000 101325 (by norm_num) (by norm_num) (by norm_num)⟩

/-- Claim C8: positivity invariant.  Under its documented preconditions
each component maps a strictly positive inlet temperature and pressure
to a strictly positive outlet temperature and pressure. -/
theorem components_positive (T P pr eff f ce loss W teff Pa : ℝ)
    (hT : 0 < T) (hP : 0 < P)
    (hpr : 1 ≤ pr) (heff0 : 0 < eff) (heff1 : eff ≤ 1)
    (hf : 0 ≤ f) (hce0 : 0 < ce) (hce1 : ce ≤ 1)
    (hl0 : 0 ≤ loss) (hl1 : loss < 1)
    (hteff0 : 0 < teff) (hteff1 : teff ≤ 1)
    (hPa : 0 < Pa) :
    (0 < (compressor T P pr eff).1 ∧ 0 < (compressor T P pr eff).2) ∧
    (0 < (combustor T P f ce loss).1 ∧ 0 < (combustor T P f ce loss).2) ∧
    (0 < (turbine T P W teff).1 ∧ 0 < (turbine T P W teff).2) ∧
    (0 < (nozzle T P Pa).1 ∧ 0 < (nozzle T P Pa).2.1) := by
  refine ⟨⟨?_, ?_⟩, ⟨?_, ?_⟩, ⟨?_, ?_⟩, ?_⟩
  · simp only [compressor]
    have hu : 1 ≤ pr ^ ((GAMMA_AIR - 1.0) / GAMMA_AIR) :=
      Real.one_le_rpow hpr (by rw [GAMMA_AIR]; norm_num)
    have h1 : 0 ≤ (T * pr ^ ((GAMMA_AIR - 1.0) / GAMMA_AIR) - T) / eff := by
      apply div_nonneg _ heff0.le
      nlinarith
    linarith
  · simp only [compressor]
    have : 0 < pr := lt_of_lt_of_le one_pos hpr
    positivity
  · simp only [combustor]
    have h1 : 0 ≤ ce * f * LHV_JET_A / CP_AIR := by
      rw [LHV_JET_A, CP_AIR]
      positivity
    linarith
  · simp only [combustor]
    nlinarith
  · simp only [turbine]
    split_ifs with h
    · rw [T_MIN_PHYSICAL]; norm_num
    · rw [not_lt, T_MIN_PHYSICAL] at h
      linarith
  · simp only [turbine]
    have hout : 0 < (if T - W / CP_HOT / teff < T_MIN_PHYSICAL then T_MIN_PHYSICAL
        else T - W / CP_HOT / teff) := by
      split_ifs with h
      · rw [T_MIN_PHYSICAL]; norm_num
      · rw [not_lt, T_MIN_PHYSICAL] at h
        linarith
    have hrat : 0 < (if T - W / CP_HOT / teff < T_MIN_PHYSICAL then T_MIN_PHYSICAL
        else T - W / CP_HOT / teff) / T := div_pos hout hT
    exact mul_pos hP (Real.rpow_pos_of_pos hrat _)
  · rw [nozzle]
    split_ifs with h
    · constructor
      · simp only [nozzleChoked, GAMMA_AIR]
        norm_num
        linarith
      · simp only [nozzleChoked, GAMMA_AIR, R_AIR]
        refine mul_pos hP (Real.rpow_pos_of_pos (by norm_num) _)
    · constructor
      · simp only [nozzleUnchoked, GAMMA_AIR]
        exact mul_pos hT (Real.rpow_pos_of_pos (div_pos hPa hP) _)
      · simpa only [nozzleUnchoked] using hPa

theorem components_positive_witness :
    (0 : ℝ) < 288 ∧
      ((0 < (compressor 288 101325 18 (22/25)).1 ∧
          0 < (compressor 288 101325 18 (22/25)).2) ∧
        (0 < (combustor 288 101325 (1/50) (99/100) (3/100)).1 ∧
          0 < (combustor 288 101325 (1/50) (99/100) (3/100)).2) ∧
        (0 < (turbine 288 101325 420000 (9/10)).1 ∧
          0 < (turbine 288 101325 420000 (9/10)).2) ∧
        (0 < (nozzle 288 101325 101325).1 ∧
          0 < (nozzle 288 101325 101325).2.1)) :=
  ⟨by norm_num,
   components_positive 288 101325 18 (22/25) (1/50) (99/100) (3/100) 420000
     (9/10) 101325 (by norm_num) (by norm_num) (by norm_num) (by norm_num)
     (by norm_num) (by norm_num) (by norm_num) (by norm_num) (by norm_num)
     (by norm_num) (by norm_num) (by norm_num) (by norm_num)⟩

/-- Claim C9 counterexample: at thrust 10000 and mdot_fuel 0 the source
function fails with the bare divide-by-zero fault, while the
spec-recommended validated version fails with an input-validation
error; the two failure kinds are distinct, so the implementation does
not reject zero fuel flow with an input-validation error. -/
theorem specific_impulse_zero_fuel_counterexample :
    compute_specific_impulse 10000 0 9.81 =
        Except.error PyError.zeroDivisionError ∧
      compute_specific_impulse_validated 10000 0 9.81 =
        Except.error PyError.valueError ∧
      (Except.error PyError.zeroDivisionError : Except PyError ℝ) ≠
        Except.error PyError.valueError := by
  refine ⟨?_, ?_, fun h => absurd (Except.error.inj h) (by decide)⟩
  · rw [compute_specific_impulse, if_pos (by norm_num)]
  · rw [compute_specific_impulse_validated, if_pos rfl]

/-- Claim C9 amended: for every thrust and every g,
compute_specific_impulse(thrust, 0, g) fails -- the division raises a
ZeroDivisionError -- rather than returning a numeric result or an
infinity; the failure is the divide-by-zero fault itself, not an
explicit input-validation rejection. -/
theorem specific_impulse_zero_fuel (thrust g : ℝ) :
    compute_specific_impulse thrust 0 g =
      Except.error PyError.zeroDivisionError := by
  rw [compute_specific_impulse, if_pos (zero_mul g)]

/-- The compressor scenario exponent (gamma-1)/gamma for gamma = 1.4 is 2/7. -/
lemma compressor_expnt_eq : ((1.4 : ℝ) - 1.0) / 1.4 = (2 : ℝ) / 7 := by norm_num

/-- Rational upper bound on 18^(2/7). -/
lemma eighteen_rpow_lt : (18 : ℝ) ^ ((2 : ℝ) / 7) < 2.2838 := by
  have h0 : (0 : ℝ) ≤ 18 := by norm_num
  have h7 : ((18 : ℝ) ^ ((2 : ℝ) / 7)) ^ (7 : ℕ) = 324 := by
    rw [← Real.rpow_natCast ((18 : ℝ) ^ ((2 : ℝ) / 7)) 7, ← Real.rpow_mul h0]
    have hexp : (2 : ℝ) / 7 * ((7 : ℕ) : ℝ) = ((2 : ℕ) : ℝ) := by push_cast; ring
    rw [hexp, Real.rpow_natCast]
    norm_num
  refine lt_of_pow_lt_pow_left 7 (by norm_num) ?_
  rw [h7]
  norm_num

/-- Rational lower bound on 18^(2/7). -/
lemma eighteen_rpow_gt : (2.2837 : ℝ) < (18 : ℝ) ^ ((2 : ℝ) / 7) := by
  have h0 : (0 : ℝ) ≤ 18 := by norm_num
  have h7 : ((18 : ℝ) ^ ((2 : ℝ) / 7)) ^ (7 : ℕ) = 324 := by
    rw [← Real.rpow_natCast ((18 : ℝ) ^ ((2 : ℝ) / 7)) 7, ← Real.rpow_mul h0]
    have hexp : (2 : ℝ) / 7 * ((7 : ℕ) : ℝ) = ((2 : ℕ) : ℝ) := by push_cast; ring
    rw [hexp, Real.rpow_natCast]
    norm_num
  refine lt_of_pow_lt_pow_left 7 (Real.rpow_nonneg h0 _) ?_
  rw [h7]
  norm_num

/-- Claim C6 counterexample: the compressor at (288.15, 101325, 18, 0.88)
returns an outlet temperature strictly below 710 K, more than 35 K
under the 745.9 K the claim asserts, while the outlet pressure is the
exact 1,823,850 Pa. -/
theorem compressor_scenario_counterexample :
    (compressor 288.15 101325 18 0.88).1 < 710 ∧
      (compressor 288.15 101325 18 0.88).2 = 1823850 := by
  constructor
  · simp only [compressor, GAMMA_AIR, compressor_expnt_eq]
    have hu : (18 : ℝ) ^ ((2 : ℝ) / 7) < 2.2838 := eighteen_rpow_lt
    have key : (288.15 * (18 : ℝ) ^ ((2 : ℝ) / 7) - 288.15) / 0.88 =
        (288.15 * (18 : ℝ) ^ ((2 : ℝ) / 7) - 288.15) * (25 / 22) := by
      ring
    rw [key]
    nlinarith
  · simp only [compressor, GAMMA_AIR]
    norm_num

/-- Claim C6 amended: compressor(288.15, 101325, 18.0, 0.88) returns
T_out strictly between 708 K and 709 K (approximately 708.5 K, not
745.9 K) and P_out exactly 1,823,850 Pa. -/
theorem compressor_scenario_amended :
    (708 < (compressor 288.15 101325 18 0.88).1 ∧
        (compressor 288.15 101325 18 0.88).1 < 709) ∧
      (compressor 288.15 101325 18 0.88).2 = 1823850 := by
  refine ⟨⟨?_, ?_⟩, ?_⟩
  · simp only [compressor, GAMMA_AIR, compressor_expnt_eq]
    have hu : (2.2837 : ℝ) < (18 : ℝ) ^ ((2 : ℝ) / 7) := eighteen_rpow_gt
    have key : (288.15 * (18 : ℝ) ^ ((2 : ℝ) / 7) - 288.15) / 0.88 =
        (288.15 * (18 : ℝ) ^ ((2 : ℝ) / 7) - 288.15) * (25 / 22) := by
      ring
    rw [key]
    nlinarith
  · simp only [compressor, GAMMA_AIR, compressor_expnt_eq]
    have hu : (18 : ℝ) ^ ((2 : ℝ) / 7) < 2.2838 := eighteen_rpow_lt
    have key : (288.15 * (18 : ℝ) ^ ((2 : ℝ) / 7) - 288.15) / 0.88 =
        (288.15 * (18 : ℝ) ^ ((2 : ℝ) / 7) - 288.15) * (25 / 22) := by
      ring
    rw [key]
    nlinarith
  · simp only [compressor, GAMMA_AIR]
    norm_num

/-- The critical pressure ratio evaluates to (6/5)^(7/2). -/
lemma CRITICAL_PR_eq : CRITICAL_PR = (6/5 : ℝ) ^ ((7 : ℝ)/2) := by
  have h1 : ((1.4 : ℝ) + 1.0) / 2.0 = 6/5 := by norm_num
  have h2 : (1.4 : ℝ) / (1.4 - 1.0) = (7 : ℝ)/2 := by norm_num
  rw [CRITICAL_PR, GAMMA_AIR, h1, h2]

/-- The critical pressure ratio is positive. -/
lemma CRITICAL_PR_pos : 0 < CRITICAL_PR := by
  rw [CRITICAL_PR_eq]
  exact Real.rpow_pos_of_pos (by norm_num) _

/-- The inverse critical pressure ratio raised to (gamma-1)/gamma is 5/6. -/
lemma boundary_prat_pow :
    (((6/5 : ℝ) ^ ((7 : ℝ)/2))⁻¹) ^ (((1.4 : ℝ) - 1.0) / 1.4) = 5/6 := by
  have h65 : (0 : ℝ) ≤ 6/5 := by norm_num
  rw [← Real.rpow_neg h65, ← Real.rpow_mul h65]
  have hexp : -((7 : ℝ)/2) * (((1.4 : ℝ) - 1.0) / 1.4) = -1 := by norm_num
  rw [hexp, Real.rpow_neg_one]
  norm_num

/-- (5/6)^(7/2) is the inverse of (6/5)^(7/2). -/
lemma five_sixth_rpow :
    ((5/6 : ℝ)) ^ ((7 : ℝ)/2) = ((6/5 : ℝ) ^ ((7 : ℝ)/2))⁻¹ := by
  rw [show (5/6 : ℝ) = (6/5 : ℝ)⁻¹ from by norm_num,
    Real.inv_rpow (by norm_num : (0 : ℝ) ≤ 6/5)]

/-- The choked branch exit Mach number is 1 at any input. -/
lemma nozzleChoked_M (T P : ℝ) : (nozzleChoked T P).2.2.2 = 1 := by
  simp only [nozzleChoked]
  norm_num

/-- The choked branch exit temperature is 5/6 of the inlet temperature. -/
lemma nozzleChoked_T (T P : ℝ) : (nozzleChoked T P).1 = T * (5/6) := by
  simp only [nozzleChoked, GAMMA_AIR]
  norm_num

/-- At inlet pressure P_ambient * CRITICAL_PR, the choked branch exit
pressure is exactly P_ambient. -/
lemma nozzleChoked_P_boundary (T Pa : ℝ) :
    (nozzleChoked T (Pa * CRITICAL_PR)).2.1 = Pa := by
  simp only [nozzleChoked, GAMMA_AIR]
  have h1 : (2.0 : ℝ) / (1.4 + 1.0) = 5/6 := by norm_num
  have h2 : (1.4 : ℝ) / (1.4 - 1.0) = (7 : ℝ)/2 := by norm_num
  rw [h1, h2, five_sixth_rpow, CRITICAL_PR_eq]
  have hne : ((6/5 : ℝ) ^ ((7 : ℝ)/2)) ≠ 0 :=
    (Real.rpow_pos_of_pos (by norm_num) _).ne'
  field_simp

/-- At inlet pressure P_ambient * CRITICAL_PR, the unchoked branch exit
temperature is also 5/6 of the inlet temperature. -/
lemma nozzleUnchoked_T_boundary (T Pa : ℝ) (hPa : 0 < Pa) :
    (nozzleUnchoked T (Pa * CRITICAL_PR) Pa).1 = T * (5/6) := by
  simp only [nozzleUnchoked, GAMMA_AIR]
  have hprat : Pa / (Pa * CRITICAL_PR) = CRITICAL_PR⁻¹ := by
    rw [div_mul_eq_div_div, div_self hPa.ne', one_div]
  rw [hprat, CRITICAL_PR_eq, boundary_prat_pow]

/-- At inlet pressure P_ambient * CRITICAL_PR, the unchoked branch exit
Mach number is sqrt(2010/2009), strictly above one, because
Cp = 1005 differs from gamma R / (gamma - 1) = 1004.5. -/
lemma nozzleUnchoked_M_boundary (T Pa : ℝ) (hT : 0 < T) (hPa : 0 < Pa) :
    (nozzleUnchoked T (Pa * CRITICAL_PR) Pa).2.2.2 =
      Real.sqrt (2010/2009) := by
  simp only [nozzleUnchoked, GAMMA_AIR, R_AIR, CP_AIR]
  have hprat : Pa / (Pa * CRITICAL_PR) = CRITICAL_PR⁻¹ := by
    rw [div_mul_eq_div_div, div_self hPa.ne', one_div]
  rw [hprat, CRITICAL_PR_eq, boundary_prat_pow]
  have hmax : max (2.0 * (1005.0 * (T - T * (5/6)))) 0.0 = 335 * T := by
    rw [max_eq_left (by nlinarith)]
    ring
  have ha : (1.4 : ℝ) * 287.0 * (T * (5/6)) = (2009/6) * T := by ring
  rw [hmax, ha, ← Real.sqrt_div (by positivity)]
  congr 1
  rw [div_eq_div_iff (by positivity) (by norm_num)]
  ring

/-- sqrt(2010/2009) is not one. -/
lemma sqrt_ratio_ne_one : Real.sqrt (2010/2009) ≠ 1 := by
  intro h
  rw [Real.sqrt_eq_one] at h
  norm_num at h

/-- Claim C5 counterexample: at T_in = 360, P_ambient = 100000 and
P_in = 100000 * CRITICAL_PR (pressure ratio exactly critical), the
choked branch formulas give M_exit = 1 but the unchoked branch formulas
give M_exit = sqrt(2010/2009), which is not 1; so the two branches do
not both yield M_exit = 1 at the boundary. -/
theorem nozzle_boundary_counterexample :
    (nozzleChoked 360 (100000 * CRITICAL_PR)).2.2.2 = 1 ∧
      (nozzleUnchoked 360 (100000 * CRITICAL_PR) 100000).2.2.2 ≠ 1 := by
  refine ⟨nozzleChoked_M 360 (100000 * CRITICAL_PR), ?_⟩
  rw [nozzleUnchoked_M_boundary 360 100000 (by norm_num) (by norm_num)]
  exact sqrt_ratio_ne_one

/-- Claim C5 amended: at P_in / P_ambient exactly equal to PR_crit the
code takes the choked branch (the test is a non-strict inequality), the
choked and unchoked branch formulas agree exactly on T_exit and P_exit,
and the choked branch gives M_exit = 1; but the unchoked branch
formulas give M_exit = sqrt(2010/2009), about 1.00025 rather than 1
(with a correspondingly different V_exit), because Cp_air = 1005
differs from gamma R / (gamma - 1) = 1004.5; so the nozzle is
continuous in T_exit and P_exit at the switch but has a small jump in
M_exit and V_exit. -/
theorem nozzle_boundary_amended (T Pa : ℝ) (hT : 0 < T) (hPa : 0 < Pa) :
    CRITICAL_PR ≤ Pa * CRITICAL_PR / Pa ∧
      nozzle T (Pa * CRITICAL_PR) Pa = nozzleChoked T (Pa * CRITICAL_PR) ∧
      (nozzleChoked T (Pa * CRITICAL_PR)).1 =
        (nozzleUnchoked T (Pa * CRITICAL_PR) Pa).1 ∧
      (nozzleChoked T (Pa * CRITICAL_PR)).2.1 =
        (nozzleUnchoked T (Pa * CRITICAL_PR) Pa).2.1 ∧
      (nozzleChoked T (Pa * CRITICAL_PR)).2.2.2 = 1 ∧
      (nozzleUnchoked T (Pa * CRITICAL_PR) Pa).2.2.2 =
        Real.sqrt (2010/2009) := by
  have hb : Pa * CRITICAL_PR / Pa = CRITICAL_PR := by
    rw [mul_comm, mul_div_assoc, div_self hPa.ne', mul_one]
  refine ⟨by rw [hb], ?_, ?_, ?_, nozzleChoked_M T _,
    nozzleUnchoked_M_boundary T Pa hT hPa⟩
  · rw [nozzle]
    simp only [hb]
    rw [if_pos (le_refl CRITICAL_PR)]
  · rw [nozzleChoked_T, nozzleUnchoked_T_boundary T Pa hPa]
  · rw [nozzleChoked_P_boundary]
    simp [nozzleUnchoked]

theorem nozzle_boundary_amended_witness :
    (0 : ℝ) < 360 ∧
      (CRITICAL_PR ≤ 100000 * CRITICAL_PR / 100000 ∧
        nozzle 360 (100000 * CRITICAL_PR) 100000 =
          nozzleChoked 360 (100000 * CRITICAL_PR) ∧
        (nozzleChoked 360 (100000 * CRITICAL_PR)).1 =
          (nozzleUnchoked 360 (100000 * CRITICAL_PR) 100000).1 ∧
        (nozzleChoked 360 (100000 * CRITICAL_PR)).2.1 =
          (nozzleUnchoked 360 (100000 * CRITICAL_PR) 100000).2.1 ∧
        (nozzleChoked 360 (100000 * CRITICAL_PR)).2.2.2 = 1 ∧
        (nozzleUnchoked 360 (100000 * CRITICAL_PR) 100000).2.2.2 =
          Real.sqrt (2010/2009)) :=
  ⟨by norm_num,
   nozzle_boundary_amended 360 100000 (by norm_num) (by norm_num)⟩
